import Mathlib

/-!
# cosmovisor `help.go`: help decision and help report

A shallow embedding of `cosmovisor/cmd/cosmovisor/cmd/help.go`
(`ShouldGiveHelp`, `DoHelp`, `GetHelpText`) together with the properties
of the help decision and of the diagnostic report.

Conventions of the embedding:

* the process environment is a finite map from variable names to values,
  read through `Getenv`, which like `os.Getenv` yields the empty string for a
  variable that is not set;
* the package constants `cosmovisor.EnvName` and `cosmovisor.EnvHome` are
  declared outside this unit and are therefore parameters;
* the collaborators `cosmovisor.GetConfigFromEnv`, `Config.DetailString` and
  `cosmovisor.RunHelp` are parameters as well; `DoHelp` is embedded as the
  ordered list of effects it performs.
-/

namespace Cosmovisor

/-! ## Environment -/

/-- Process environment: the value bound to each variable name, if any. -/
abbrev Environ := String → Option String

/-- Go `os.Getenv`: the value of the variable, or the empty string when the
variable is not present. -/
def Getenv (env : Environ) (key : String) : String :=
  match env key with
  | some v => v
  | none => ""

/-- Go `len(s)` on a string: the number of bytes of its UTF-8 encoding. -/
def len (s : String) : Nat := s.utf8ByteSize

/-- Environment fact used by the specification: the variable is set and its
value is not the empty string. -/
def EnvPresent (env : Environ) (key : String) : Prop :=
  ∃ v, env key = some v ∧ v ≠ ""

/-! ## `ShouldGiveHelp` -/

/-- The loop `for _, arg := range args` of `ShouldGiveHelp`: returns `true` at
the first argument equal to `--help` or `-h`, and `false` when the range is
exhausted. -/
def rangeHelpFlag : List String → Bool
  | [] => false
  | arg :: rest =>
    if arg == "--help" || arg == "-h" then true
    else rangeHelpFlag rest

/-- Embedding of `ShouldGiveHelp(args []string) bool`. -/
def ShouldGiveHelp (EnvName EnvHome : String) (env : Environ) (args : List String) : Bool :=
  if len (Getenv env EnvName) == 0 || len (Getenv env EnvHome) == 0 then true
  else if args.length == 0 then false
  else if args[0]? == some "help" then true
  else rangeHelpFlag args

/-! ## Formatting -/

/-- Go `fmt.Println(s)` for a single string operand: the text written is the
operand followed by a newline. -/
def Println (s : String) : String := s ++ "\n"

/-- The verb `%d` applied to a non-negative `int`: its decimal digits. -/
def fmtD (n : Nat) : String := Nat.repr n

/-- Embedding of `GetHelpText() string`: the usage template with
`cosmovisor.EnvName` and `cosmovisor.EnvHome` substituted for its two `%s`
verbs, in this order. -/
def GetHelpText (EnvName EnvHome : String) : String :=
  "Cosmosvisor - A process manager for Cosmos SDK application binaries.\n"
  ++ "\n"
  ++ "Cosmovisor is a wrapper for a Cosmos SDK based App (set using the required "
  ++ EnvName
  ++ " env variable).\n"
  ++ "It starts the App by passing all provided arguments and monitors the "
  ++ EnvHome
  ++ "/data/upgrade-info.json\n"
  ++ "file to perform an update. The upgrade-info.json file is created by the App x/upgrade module\n"
  ++ "when the blockchain height reaches an approved upgrade proposal. The file includes data from\n"
  ++ "the proposal. Cosmovisor interprets that data to perform an update: switch a current binary\n"
  ++ "and restart the App.\n"
  ++ "\n"
  ++ "Configuration of Cosmovisor is done through environment variables, which are\n"
  ++ "documented in: https://github.com/cosmos/cosmos-sdk/tree/master/cosmovisor/README.md\n"

/-! ## Errors -/

/-- A non-nil Go `error` value as this unit observes it. Its dynamic type is
either `*errors.MultiError`, which carries the ordered result of `GetErrors()`,
or any other type. In both cases `msg` is what its `Error()` method returns. -/
inductive GoError where
  | MultiError (msg : String) (errs : List GoError)
  | other (msg : String)

/-- The method `Error() string` of an error value. -/
def GoError.Error : GoError → String
  | .MultiError msg _ => msg
  | .other msg => msg

/-- The verb `%v` applied to an error value prints the result of `Error()`. -/
def fmtV (e : GoError) : String := e.Error

/-! ## `DoHelp` -/

/-- One observable action of `DoHelp`: a write of its own to `os.Stdout`, a
write of its own to `os.Stderr`, or the call
`cosmovisor.RunHelp(cfg, os.Stdout, os.Stderr)`. -/
inductive Effect (Config : Type) where
  | stdout (text : String)
  | stderr (text : String)
  | RunHelp (cfg : Config)

/-- The loop `for i, e := range err.GetErrors()` of `DoHelp`, entered at index
`i`: one `Fprintf(os.Stderr, "  %d: %v\n", i+1, e)` per element. -/
def rangeErrors {Config : Type} (i : Nat) : List GoError → List (Effect Config)
  | [] => []
  | e :: rest =>
    Effect.stderr ("  " ++ fmtD (i + 1) ++ ": " ++ fmtV e ++ "\n") :: rangeErrors (i + 1) rest

/-- Embedding of `DoHelp()`: the effects it performs, in program order.

`GetConfigFromEnv` is the pair `(cfg, cerr)` returned by
`cosmovisor.GetConfigFromEnv()`, with `none` for a nil error; `DetailString` is
the method `cfg.DetailString()`; `RunHelp cfg` is the error returned by
`cosmovisor.RunHelp(cfg, os.Stdout, os.Stderr)`, with `none` for nil. -/
def DoHelp {Config : Type} (EnvName EnvHome : String)
    (GetConfigFromEnv : Config × Option GoError)
    (DetailString : Config → String) (RunHelp : Config → Option GoError) :
    List (Effect Config) :=
  let out := [Effect.stdout (Println (GetHelpText EnvName EnvHome))]
  match GetConfigFromEnv with
  | (cfg, none) =>
    let out := out ++ [Effect.stdout (Println "[cosmovisor] config is valid:")]
    let out := out ++ [Effect.stdout (Println (DetailString cfg))]
    let out := out ++ [Effect.RunHelp cfg]
    match RunHelp cfg with
    | some err => out ++ [Effect.stderr ("[cosmovisor] " ++ fmtV err ++ "\n")]
    | none => out
  | (_, some (GoError.MultiError _ errs)) =>
    let out := out ++ [Effect.stderr "[cosmovisor] multiple configuration errors found:\n"]
    out ++ rangeErrors 0 errs
  | (_, some (GoError.other msg)) =>
    out ++ [Effect.stderr ("[cosmovisor] " ++ fmtV (GoError.other msg) ++ "\n")]

/-- The writes `DoHelp` itself makes to `os.Stdout`, in order. -/
def stdoutWrites {Config : Type} : List (Effect Config) → List String
  | [] => []
  | Effect.stdout text :: rest => text :: stdoutWrites rest
  | _ :: rest => stdoutWrites rest

/-- The writes `DoHelp` itself makes to `os.Stderr`, in order. -/
def stderrWrites {Config : Type} : List (Effect Config) → List String
  | [] => []
  | Effect.stderr text :: rest => text :: stderrWrites rest
  | _ :: rest => stderrWrites rest

/-- The configs with which the binary runner is called, in order. -/
def runHelpCalls {Config : Type} : List (Effect Config) → List Config
  | [] => []
  | Effect.RunHelp cfg :: rest => cfg :: runHelpCalls rest
  | _ :: rest => runHelpCalls rest

/-- The text `DoHelp` itself writes to `os.Stdout`. -/
def stdoutText {Config : Type} (t : List (Effect Config)) : String :=
  String.join (stdoutWrites t)

/-- The text `DoHelp` itself writes to `os.Stderr`. -/
def stderrText {Config : Type} (t : List (Effect Config)) : String :=
  String.join (stderrWrites t)

/-! ## Concrete inputs used to exercise the statements -/

/-- An environment in which both required variables are set and non-empty. -/
def envBoth : Environ := fun key =>
  if key = "DAEMON_NAME" then some "simd"
  else if key = "DAEMON_HOME" then some "/home/simd"
  else none

/-- An environment in which only the name variable is set. -/
def envNameOnly : Environ := fun key =>
  if key = "DAEMON_NAME" then some "simd" else none

/-- A stand-in config type for concrete runs: the config is its detail string. -/
structure DemoConfig where
  detail : String

/-! ## Basic facts about the embedding -/

theorem utf8ByteSize_go_pos (c : Char) (cs : List Char) :
    0 < String.utf8ByteSize.go (c :: cs) := by
  have h := Char.utf8Size_pos c
  simp only [String.utf8ByteSize.go]
  omega

theorem len_eq_zero_iff (s : String) : len s = 0 ↔ s = "" := by
  constructor
  · intro h
    cases s with
    | mk data =>
      cases data with
      | nil => rfl
      | cons c cs =>
        have hp := utf8ByteSize_go_pos c cs
        simp only [len, String.utf8ByteSize] at h
        omega
  · intro h
    subst h
    rfl

theorem envPresent_iff (env : Environ) (key : String) :
    EnvPresent env key ↔ len (Getenv env key) ≠ 0 := by
  rw [Ne, len_eq_zero_iff]
  unfold EnvPresent Getenv
  cases h : env key with
  | none => simp
  | some v => simp

theorem rangeHelpFlag_iff (args : List String) :
    rangeHelpFlag args = true ↔ "-h" ∈ args ∨ "--help" ∈ args := by
  induction args with
  | nil => simp [rangeHelpFlag]
  | cons arg rest ih =>
    by_cases h : arg = "--help" ∨ arg = "-h"
    · have : rangeHelpFlag (arg :: rest) = true := by
        simp [rangeHelpFlag, h]
      rw [this]
      rcases h with h | h <;> simp [h]
    · have : rangeHelpFlag (arg :: rest) = rangeHelpFlag rest := by
        simp [rangeHelpFlag, h]
      rw [this, ih]
      push_neg at h
      simp [List.mem_cons, Ne.symm h.1, Ne.symm h.2]

/-- With both variables present the decision only depends on the arguments. -/
theorem ShouldGiveHelp_of_present (EnvName EnvHome : String) (env : Environ)
    (args : List String) (hn : EnvPresent env EnvName) (hh : EnvPresent env EnvHome) :
    ShouldGiveHelp EnvName EnvHome env args =
      (if args.length == 0 then false
       else if args[0]? == some "help" then true
       else rangeHelpFlag args) := by
  rw [envPresent_iff] at hn hh
  simp [ShouldGiveHelp, hn, hh]

/-- With a variable missing the decision is `true`. -/
theorem ShouldGiveHelp_of_absent (EnvName EnvHome : String) (env : Environ)
    (args : List String) (h : ¬ EnvPresent env EnvName ∨ ¬ EnvPresent env EnvHome) :
    ShouldGiveHelp EnvName EnvHome env args = true := by
  rw [envPresent_iff, envPresent_iff] at h
  simp only [ne_eq, not_not] at h
  rcases h with h | h <;> simp [ShouldGiveHelp, h]

theorem join_cons (a : String) (l : List String) :
    String.join (a :: l) = a ++ String.join l := by
  have key : ∀ (l : List String) (acc : String),
      List.foldl (fun r s => r ++ s) acc l
        = acc ++ List.foldl (fun r s => r ++ s) "" l := by
    intro l
    induction l with
    | nil => intro acc; simp
    | cons b l ih =>
      intro acc
      simp only [List.foldl_cons]
      rw [ih (acc ++ b), ih ("" ++ b)]
      simp [String.append_assoc]
  simp only [String.join, List.foldl_cons]
  rw [key l ("" ++ a)]
  simp

theorem join_nil : String.join [] = "" := rfl

/-- Characterisation of the help decision by the five triggers. -/
theorem ShouldGiveHelp_spec (EnvName EnvHome : String) (env : Environ) (args : List String) :
    ShouldGiveHelp EnvName EnvHome env args = true ↔
      (¬ EnvPresent env EnvName ∨ ¬ EnvPresent env EnvHome
        ∨ (args ≠ [] ∧ args[0]? = some "help") ∨ "-h" ∈ args ∨ "--help" ∈ args) := by
  by_cases hn : EnvPresent env EnvName
  · by_cases hh : EnvPresent env EnvHome
    · rw [ShouldGiveHelp_of_present EnvName EnvHome env args hn hh]
      cases args with
      | nil => simp [hn, hh]
      | cons a rest =>
        by_cases ha : a = "help"
        · simp [ha]
        · have hr := rangeHelpFlag_iff (a :: rest)
          simp only [List.length_cons, Nat.add_one_ne_zero, beq_iff_eq, if_false,
            List.getElem?_cons_zero, Option.some.injEq, ha, not_true_eq_false, hn, hh,
            false_or, ne_eq, reduceCtorEq, not_false_eq_true, and_false]
          exact hr
    · simp [ShouldGiveHelp_of_absent EnvName EnvHome env args (Or.inr hh), hh]
  · simp [ShouldGiveHelp_of_absent EnvName EnvHome env args (Or.inl hn), hn]

theorem envBoth_name : EnvPresent envBoth "DAEMON_NAME" :=
  ⟨"simd", by decide, by decide⟩

theorem envBoth_home : EnvPresent envBoth "DAEMON_HOME" :=
  ⟨"/home/simd", by decide, by decide⟩

theorem envNameOnly_home : ¬ EnvPresent envNameOnly "DAEMON_HOME" := by
  rintro ⟨v, hv, _⟩
  have : envNameOnly "DAEMON_HOME" = none := by decide
  rw [this] at hv
  cases hv

/-- The error loop only writes to `os.Stderr`: line `j` of the loop entered at
index `i` carries the number `i + j + 1` and the message of the `j`-th error. -/
theorem stderrWrites_rangeErrors {Config : Type} (errs : List GoError) (i : Nat) :
    stderrWrites (rangeErrors i errs : List (Effect Config))
      = List.ofFn (fun j : Fin errs.length =>
          "  " ++ Nat.repr (i + j.val + 1) ++ ": " ++ (errs.get j).Error ++ "\n") := by
  induction errs generalizing i with
  | nil => simp [rangeErrors, stderrWrites]
  | cons e rest ih =>
    simp only [rangeErrors, stderrWrites, ih (i + 1), List.length_cons, List.ofFn_succ,
      Fin.val_zero, Fin.val_succ, List.get_eq_getElem, List.getElem_cons_zero,
      List.getElem_cons_succ, fmtD, fmtV, Nat.add_zero]
    congr 2
    funext j
    have : i + 1 + j.val + 1 = i + (j.val + 1) + 1 := by omega
    rw [this]

theorem stdoutWrites_rangeErrors {Config : Type} (errs : List GoError) (i : Nat) :
    stdoutWrites (rangeErrors i errs : List (Effect Config)) = [] := by
  induction errs generalizing i with
  | nil => simp [rangeErrors, stdoutWrites]
  | cons e rest ih => simp [rangeErrors, stdoutWrites, ih (i + 1)]

theorem runHelpCalls_rangeErrors {Config : Type} (errs : List GoError) (i : Nat) :
    runHelpCalls (rangeErrors i errs : List (Effect Config)) = [] := by
  induction errs generalizing i with
  | nil => simp [rangeErrors, runHelpCalls]
  | cons e rest ih => simp [rangeErrors, runHelpCalls, ih (i + 1)]

/-- The effects of `DoHelp` when the loader returns a `*errors.MultiError`. -/
theorem DoHelp_multi {Config : Type} (EnvName EnvHome : String) (cfg : Config)
    (msg : String) (errs : List GoError)
    (DetailString : Config → String) (RunHelp : Config → Option GoError) :
    DoHelp EnvName EnvHome (cfg, some (GoError.MultiError msg errs)) DetailString RunHelp
      = Effect.stdout (GetHelpText EnvName EnvHome ++ "\n")
        :: Effect.stderr "[cosmovisor] multiple configuration errors found:\n"
        :: rangeErrors 0 errs := by
  simp [DoHelp, Println]

/-- The effects of `DoHelp` when the loader returns no error. -/
theorem DoHelp_valid {Config : Type} (EnvName EnvHome : String) (cfg : Config)
    (DetailString : Config → String) (RunHelp : Config → Option GoError) :
    DoHelp EnvName EnvHome (cfg, none) DetailString RunHelp
      = [Effect.stdout (GetHelpText EnvName EnvHome ++ "\n"),
         Effect.stdout ("[cosmovisor] config is valid:" ++ "\n"),
         Effect.stdout (DetailString cfg ++ "\n"),
         Effect.RunHelp cfg]
        ++ (match RunHelp cfg with
            | some err => [Effect.stderr ("[cosmovisor] " ++ err.Error ++ "\n")]
            | none => []) := by
  cases h : RunHelp cfg <;> simp [DoHelp, Println, fmtV, h]

/-! ## Concrete runs -/

/-- Two loader errors: header, then the two numbered lines, in order. -/
theorem DoHelp_two_errors_run :
    stderrText (DoHelp "DAEMON_NAME" "DAEMON_HOME"
        (DemoConfig.mk "D", some (GoError.MultiError "2 errors" [GoError.other "e1", GoError.other "e2"]))
        DemoConfig.detail (fun _ => none))
      = "[cosmovisor] multiple configuration errors found:\n  1: e1\n  2: e2\n" := by
  decide

/-- A valid config whose runner fails with `boom`: the whole trace. -/
theorem DoHelp_boom_run :
    DoHelp "DAEMON_NAME" "DAEMON_HOME" (DemoConfig.mk "D", none)
        DemoConfig.detail (fun _ => some (GoError.other "boom"))
      = [Effect.stdout (GetHelpText "DAEMON_NAME" "DAEMON_HOME" ++ "\n"),
         Effect.stdout "[cosmovisor] config is valid:\n",
         Effect.stdout "D\n",
         Effect.RunHelp (DemoConfig.mk "D"),
         Effect.stderr "[cosmovisor] boom\n"] := by
  rfl

/-- The decision on the argument lists named by the specification, with both
variables present. -/
theorem ShouldGiveHelp_runs :
    ShouldGiveHelp "DAEMON_NAME" "DAEMON_HOME" envBoth [] = false
    ∧ ShouldGiveHelp "DAEMON_NAME" "DAEMON_HOME" envBoth ["help"] = true
    ∧ ShouldGiveHelp "DAEMON_NAME" "DAEMON_HOME" envBoth ["help", "x"] = true
    ∧ ShouldGiveHelp "DAEMON_NAME" "DAEMON_HOME" envBoth ["start", "-h"] = true
    ∧ ShouldGiveHelp "DAEMON_NAME" "DAEMON_HOME" envBoth ["start", "--help"] = true
    ∧ ShouldGiveHelp "DAEMON_NAME" "DAEMON_HOME" envBoth ["start", "node0"] = false
    ∧ ShouldGiveHelp "DAEMON_NAME" "DAEMON_HOME" envBoth ["start", "help"] = false
    ∧ ShouldGiveHelp "DAEMON_NAME" "DAEMON_HOME" envNameOnly [] = true := by
  decide

/-! ## The help decision -/

/-- C1: `ShouldGiveHelp(args)` returns `true` exactly when the name variable is
not set and non-empty, or the home variable is not set and non-empty, or `args`
is non-empty with first element `help`, or some element of `args` is `-h`, or
some element of `args` is `--help`; in every other case it returns `false`. -/
theorem C1_ShouldGiveHelp_iff (EnvName EnvHome : String) (env : Environ) (args : List String) :
    (ShouldGiveHelp EnvName EnvHome env args = true ↔
      (¬ EnvPresent env EnvName ∨ ¬ EnvPresent env EnvHome
        ∨ (args ≠ [] ∧ args[0]? = some "help") ∨ "-h" ∈ args ∨ "--help" ∈ args))
    ∧ (ShouldGiveHelp EnvName EnvHome env args = false ↔
      ¬ (¬ EnvPresent env EnvName ∨ ¬ EnvPresent env EnvHome
        ∨ (args ≠ [] ∧ args[0]? = some "help") ∨ "-h" ∈ args ∨ "--help" ∈ args)) := by
  have h := ShouldGiveHelp_spec EnvName EnvHome env args
  refine ⟨h, ?_⟩
  rw [← h]
  simp

/-- C2: when the name variable or the home variable is not set and non-empty,
`ShouldGiveHelp` returns `true` for every argument list, the empty one
included. -/
theorem C2_missing_env_gives_help (EnvName EnvHome : String) (env : Environ)
    (A : List String) (h : ¬ EnvPresent env EnvName ∨ ¬ EnvPresent env EnvHome) :
    ShouldGiveHelp EnvName EnvHome env A = true :=
  ShouldGiveHelp_of_absent EnvName EnvHome env A h

theorem C2_missing_env_gives_help_witness :
    (¬ EnvPresent envNameOnly "DAEMON_NAME" ∨ ¬ EnvPresent envNameOnly "DAEMON_HOME")
      ∧ ShouldGiveHelp "DAEMON_NAME" "DAEMON_HOME" envNameOnly [] = true :=
  ⟨Or.inr envNameOnly_home,
    C2_missing_env_gives_help "DAEMON_NAME" "DAEMON_HOME" envNameOnly []
      (Or.inr envNameOnly_home)⟩

/-- C3: with both variables present, an argument equal to `-h` or `--help` at
any index of `args` makes `ShouldGiveHelp` return `true`; in particular for
`["start", "-h"]` and `["start", "--help"]`, where the flag is not first. -/
theorem C3_flag_anywhere (EnvName EnvHome : String) (env : Environ)
    (_hn : EnvPresent env EnvName) (_hh : EnvPresent env EnvHome) :
    (∀ (args : List String) (i : Nat) (hi : i < args.length),
        args[i] = "-h" ∨ args[i] = "--help" →
        ShouldGiveHelp EnvName EnvHome env args = true)
    ∧ ShouldGiveHelp EnvName EnvHome env ["start", "-h"] = true
    ∧ ShouldGiveHelp EnvName EnvHome env ["start", "--help"] = true := by
  have all : ∀ (args : List String) (i : Nat) (hi : i < args.length),
      args[i] = "-h" ∨ args[i] = "--help" →
      ShouldGiveHelp EnvName EnvHome env args = true := by
    intro args i hi h
    rw [ShouldGiveHelp_spec]
    have hmem : args[i] ∈ args := List.getElem_mem hi
    rcases h with h | h
    · rw [h] at hmem
      exact Or.inr (Or.inr (Or.inr (Or.inl hmem)))
    · rw [h] at hmem
      exact Or.inr (Or.inr (Or.inr (Or.inr hmem)))
  refine ⟨all, ?_, ?_⟩
  · exact all ["start", "-h"] 1 (by decide) (Or.inl rfl)
  · exact all ["start", "--help"] 1 (by decide) (Or.inr rfl)

theorem C3_flag_anywhere_witness :
    EnvPresent envBoth "DAEMON_NAME" ∧ EnvPresent envBoth "DAEMON_HOME"
      ∧ ShouldGiveHelp "DAEMON_NAME" "DAEMON_HOME" envBoth ["start", "node0", "--help"] = true
      ∧ ShouldGiveHelp "DAEMON_NAME" "DAEMON_HOME" envBoth ["start", "-h"] = true :=
  ⟨envBoth_name, envBoth_home,
    (C3_flag_anywhere "DAEMON_NAME" "DAEMON_HOME" envBoth envBoth_name envBoth_home).1
      ["start", "node0", "--help"] 2 (by decide) (Or.inr rfl),
    (C3_flag_anywhere "DAEMON_NAME" "DAEMON_HOME" envBoth envBoth_name envBoth_home).2.1⟩

/-- C4: with both variables present, `ShouldGiveHelp(["help"] ++ rest)` returns
`true` for every list `rest` of further arguments. -/
theorem C4_help_first (EnvName EnvHome : String) (env : Environ)
    (_hn : EnvPresent env EnvName) (_hh : EnvPresent env EnvHome) (rest : List String) :
    ShouldGiveHelp EnvName EnvHome env (["help"] ++ rest) = true := by
  rw [ShouldGiveHelp_spec]
  exact Or.inr (Or.inr (Or.inl ⟨by simp, by simp⟩))

theorem C4_help_first_witness :
    EnvPresent envBoth "DAEMON_NAME" ∧ EnvPresent envBoth "DAEMON_HOME"
      ∧ ShouldGiveHelp "DAEMON_NAME" "DAEMON_HOME" envBoth (["help"] ++ ["x"]) = true :=
  ⟨envBoth_name, envBoth_home,
    C4_help_first "DAEMON_NAME" "DAEMON_HOME" envBoth envBoth_name envBoth_home ["x"]⟩

/-- C5: with both variables present, `ShouldGiveHelp(A)` returns `false` for
every argument list `A` none of whose elements is `help`, `-h` or `--help`; in
particular for `[]` and for `["start", "node0"]`. -/
theorem C5_no_help_token (EnvName EnvHome : String) (env : Environ)
    (hn : EnvPresent env EnvName) (hh : EnvPresent env EnvHome) :
    (∀ A : List String, "help" ∉ A ∧ "-h" ∉ A ∧ "--help" ∉ A →
        ShouldGiveHelp EnvName EnvHome env A = false)
    ∧ ShouldGiveHelp EnvName EnvHome env [] = false
    ∧ ShouldGiveHelp EnvName EnvHome env ["start", "node0"] = false := by
  have all : ∀ A : List String, "help" ∉ A ∧ "-h" ∉ A ∧ "--help" ∉ A →
      ShouldGiveHelp EnvName EnvHome env A = false := by
    intro A h
    rw [← Bool.not_eq_true, ShouldGiveHelp_spec]
    rintro (h1 | h1 | ⟨_, h1⟩ | h1 | h1)
    · exact h1 hn
    · exact h1 hh
    · exact h.1 (List.getElem?_mem h1)
    · exact h.2.1 h1
    · exact h.2.2 h1
  exact ⟨all, all [] (by simp), all ["start", "node0"] (by decide)⟩

theorem C5_no_help_token_witness :
    EnvPresent envBoth "DAEMON_NAME" ∧ EnvPresent envBoth "DAEMON_HOME"
      ∧ ("help" ∉ ["start", "--home", "/tmp"] ∧ "-h" ∉ ["start", "--home", "/tmp"]
          ∧ "--help" ∉ ["start", "--home", "/tmp"])
      ∧ ShouldGiveHelp "DAEMON_NAME" "DAEMON_HOME" envBoth ["start", "--home", "/tmp"] = false :=
  ⟨envBoth_name, envBoth_home, by decide,
    (C5_no_help_token "DAEMON_NAME" "DAEMON_HOME" envBoth envBoth_name envBoth_home).1
      ["start", "--home", "/tmp"] (by decide)⟩

/-- C10: for a fixed environment, a `true` result of `ShouldGiveHelp(args)` is
kept when arguments are appended to `args`; it is not kept when an argument is
put in front: with both variables present `ShouldGiveHelp(["help"])` is `true`
while `ShouldGiveHelp(["start"] ++ ["help"])` is `false`. -/
theorem C10_append_monotone_not_prepend (EnvName EnvHome : String) (env : Environ) :
    (∀ args more : List String,
        ShouldGiveHelp EnvName EnvHome env args = true →
        ShouldGiveHelp EnvName EnvHome env (args ++ more) = true)
    ∧ (EnvPresent env EnvName → EnvPresent env EnvHome →
        ShouldGiveHelp EnvName EnvHome env ["help"] = true
        ∧ ShouldGiveHelp EnvName EnvHome env (["start"] ++ ["help"]) = false) := by
  constructor
  · intro args more h
    rw [ShouldGiveHelp_spec] at h ⊢
    rcases h with h | h | ⟨hne, h0⟩ | h | h
    · exact Or.inl h
    · exact Or.inr (Or.inl h)
    · refine Or.inr (Or.inr (Or.inl ⟨?_, ?_⟩))
      · intro hnil
        exact hne (List.append_eq_nil.mp hnil).1
      · cases args with
        | nil => exact absurd rfl hne
        | cons a rest => simpa using h0
    · exact Or.inr (Or.inr (Or.inr (Or.inl (List.mem_append_left more h))))
    · exact Or.inr (Or.inr (Or.inr (Or.inr (List.mem_append_left more h))))
  · intro hn hh
    constructor
    · rw [ShouldGiveHelp_spec]
      exact Or.inr (Or.inr (Or.inl ⟨by simp, by simp⟩))
    · rw [← Bool.not_eq_true, ShouldGiveHelp_spec]
      rintro (h1 | h1 | ⟨_, h1⟩ | h1 | h1)
      · exact h1 hn
      · exact h1 hh
      · revert h1; decide
      · revert h1; decide
      · revert h1; decide

theorem C10_append_monotone_not_prepend_witness :
    (ShouldGiveHelp "DAEMON_NAME" "DAEMON_HOME" envBoth ["start", "-h"] = true
      ∧ ShouldGiveHelp "DAEMON_NAME" "DAEMON_HOME" envBoth (["start", "-h"] ++ ["node0"]) = true)
    ∧ (EnvPresent envBoth "DAEMON_NAME" ∧ EnvPresent envBoth "DAEMON_HOME"
      ∧ ShouldGiveHelp "DAEMON_NAME" "DAEMON_HOME" envBoth ["help"] = true
      ∧ ShouldGiveHelp "DAEMON_NAME" "DAEMON_HOME" envBoth (["start"] ++ ["help"]) = false) :=
  ⟨⟨by decide,
      (C10_append_monotone_not_prepend "DAEMON_NAME" "DAEMON_HOME" envBoth).1
        ["start", "-h"] ["node0"] (by decide)⟩,
    envBoth_name, envBoth_home,
    (C10_append_monotone_not_prepend "DAEMON_NAME" "DAEMON_HOME" envBoth).2
      envBoth_name envBoth_home⟩

/-! ## The help report -/

/-- C6: when the loader returns a MultiError carrying the errors `e1, ..., en`,
the text `DoHelp` writes to stderr is the header line
`[cosmovisor] multiple configuration errors found:` followed by `n` lines, the
`i`-th of which (counting from 1, in the order of the loader) is
`  i: <message of ei>`; stdout receives the usage text only, so no
"config is valid" section, and the binary runner is not called. -/
theorem C6_multi_error_report {Config : Type} (EnvName EnvHome : String) (cfg : Config)
    (msg : String) (errs : List GoError)
    (DetailString : Config → String) (RunHelp : Config → Option GoError) :
    stderrText
        (DoHelp EnvName EnvHome (cfg, some (GoError.MultiError msg errs)) DetailString RunHelp)
      = "[cosmovisor] multiple configuration errors found:\n"
        ++ String.join (List.ofFn (fun i : Fin errs.length =>
            "  " ++ Nat.repr (i.val + 1) ++ ": " ++ (errs.get i).Error ++ "\n"))
    ∧ stdoutWrites
        (DoHelp EnvName EnvHome (cfg, some (GoError.MultiError msg errs)) DetailString RunHelp)
      = [GetHelpText EnvName EnvHome ++ "\n"]
    ∧ runHelpCalls
        (DoHelp EnvName EnvHome (cfg, some (GoError.MultiError msg errs)) DetailString RunHelp)
      = [] := by
  rw [DoHelp_multi]
  refine ⟨?_, ?_, ?_⟩
  · simp only [stderrText, stderrWrites, stderrWrites_rangeErrors, join_cons, Nat.zero_add]
  · simp only [stdoutWrites, stdoutWrites_rangeErrors]
  · simp only [runHelpCalls, runHelpCalls_rangeErrors]

/-- C7: when the loader returns an error that is not a MultiError, the text
`DoHelp` writes to stderr is the single line `[cosmovisor] <error message>`,
the text it writes to stdout is the usage text as printed by `Println` and
nothing else, and the binary runner is not called. -/
theorem C7_single_error_report {Config : Type} (EnvName EnvHome : String) (cfg : Config)
    (msg : String) (DetailString : Config → String) (RunHelp : Config → Option GoError) :
    stderrWrites
        (DoHelp EnvName EnvHome (cfg, some (GoError.other msg)) DetailString RunHelp)
      = ["[cosmovisor] " ++ msg ++ "\n"]
    ∧ stderrText
        (DoHelp EnvName EnvHome (cfg, some (GoError.other msg)) DetailString RunHelp)
      = "[cosmovisor] " ++ msg ++ "\n"
    ∧ stdoutText
        (DoHelp EnvName EnvHome (cfg, some (GoError.other msg)) DetailString RunHelp)
      = GetHelpText EnvName EnvHome ++ "\n"
    ∧ runHelpCalls
        (DoHelp EnvName EnvHome (cfg, some (GoError.other msg)) DetailString RunHelp)
      = [] := by
  simp [DoHelp, Println, fmtV, GoError.Error, stderrText, stdoutText, stderrWrites,
    stdoutWrites, runHelpCalls, join_cons, join_nil]

/-- C8: when the loader returns no error and the detail string of the config is
`D`, the text `DoHelp` itself writes to stdout is the usage text, then the line
`[cosmovisor] config is valid:`, then `D`, each followed by a newline; after
these three writes the binary runner is called with that config, and it is
called exactly once. -/
theorem C8_valid_config_report {Config : Type} (EnvName EnvHome : String) (cfg : Config)
    (DetailString : Config → String) (RunHelp : Config → Option GoError) :
    stdoutText (DoHelp EnvName EnvHome (cfg, none) DetailString RunHelp)
      = GetHelpText EnvName EnvHome ++ "\n"
        ++ ("[cosmovisor] config is valid:" ++ "\n")
        ++ (DetailString cfg ++ "\n")
    ∧ (DoHelp EnvName EnvHome (cfg, none) DetailString RunHelp).take 4
      = [Effect.stdout (GetHelpText EnvName EnvHome ++ "\n"),
         Effect.stdout ("[cosmovisor] config is valid:" ++ "\n"),
         Effect.stdout (DetailString cfg ++ "\n"),
         Effect.RunHelp cfg]
    ∧ runHelpCalls (DoHelp EnvName EnvHome (cfg, none) DetailString RunHelp) = [cfg] := by
  rw [DoHelp_valid]
  cases RunHelp cfg <;>
    refine ⟨?_, rfl, rfl⟩ <;>
    simp only [List.cons_append, List.nil_append, List.append_nil, stdoutText, stdoutWrites,
      join_cons, join_nil, String.append_empty, String.append_assoc]

/-- C9: when the loader returns no error and the binary runner fails with an
error of message `m`, `DoHelp` performs the three stdout writes of the valid
config report, calls the runner, writes the single line `[cosmovisor] m` to
stderr and ends there; when the runner succeeds `DoHelp` writes nothing to
stderr. -/
theorem C9_runner_failure_absorbed {Config : Type} (EnvName EnvHome : String) (cfg : Config)
    (DetailString : Config → String) (RunHelp : Config → Option GoError) :
    (∀ err : GoError, RunHelp cfg = some err →
        DoHelp EnvName EnvHome (cfg, none) DetailString RunHelp
          = [Effect.stdout (GetHelpText EnvName EnvHome ++ "\n"),
             Effect.stdout ("[cosmovisor] config is valid:" ++ "\n"),
             Effect.stdout (DetailString cfg ++ "\n"),
             Effect.RunHelp cfg,
             Effect.stderr ("[cosmovisor] " ++ err.Error ++ "\n")]
        ∧ stdoutText (DoHelp EnvName EnvHome (cfg, none) DetailString RunHelp)
          = GetHelpText EnvName EnvHome ++ "\n"
            ++ ("[cosmovisor] config is valid:" ++ "\n")
            ++ (DetailString cfg ++ "\n")
        ∧ stderrWrites (DoHelp EnvName EnvHome (cfg, none) DetailString RunHelp)
          = ["[cosmovisor] " ++ err.Error ++ "\n"])
    ∧ (RunHelp cfg = none →
        stderrWrites (DoHelp EnvName EnvHome (cfg, none) DetailString RunHelp) = []
        ∧ stderrText (DoHelp EnvName EnvHome (cfg, none) DetailString RunHelp) = "") := by
  rw [DoHelp_valid]
  constructor
  · intro err h
    rw [h]
    refine ⟨rfl, ?_, rfl⟩
    simp only [List.cons_append, List.nil_append, stdoutText, stdoutWrites,
      join_cons, join_nil, String.append_empty, String.append_assoc]
  · intro h
    rw [h]
    exact ⟨rfl, rfl⟩

theorem C9_runner_failure_absorbed_witness :
    (stdoutText (DoHelp "DAEMON_NAME" "DAEMON_HOME" (DemoConfig.mk "D", none)
          DemoConfig.detail (fun _ => some (GoError.other "boom")))
        = GetHelpText "DAEMON_NAME" "DAEMON_HOME" ++ "\n"
          ++ ("[cosmovisor] config is valid:" ++ "\n") ++ ("D" ++ "\n")
      ∧ stderrWrites (DoHelp "DAEMON_NAME" "DAEMON_HOME" (DemoConfig.mk "D", none)
          DemoConfig.detail (fun _ => some (GoError.other "boom")))
        = ["[cosmovisor] boom\n"])
    ∧ stderrText (DoHelp "DAEMON_NAME" "DAEMON_HOME" (DemoConfig.mk "D", none)
          DemoConfig.detail (fun _ => none)) = "" :=
  ⟨((C9_runner_failure_absorbed "DAEMON_NAME" "DAEMON_HOME" (DemoConfig.mk "D")
        DemoConfig.detail (fun _ => some (GoError.other "boom"))).1
        (GoError.other "boom") rfl).2,
    ((C9_runner_failure_absorbed "DAEMON_NAME" "DAEMON_HOME" (DemoConfig.mk "D")
        DemoConfig.detail (fun _ => none)).2 rfl).2⟩

end Cosmovisor
